import Mathlib

/-
  Formalisation of the session sign-up bots in this repository.

  Each namespace embeds one variant of the program:
  * `Mem`            - the in-memory list variant (first program in index.js,
                       also the logic of part_007);
  * `PartClosed`     - the in-memory variant with a closed flag and a
                       Close Session button (part_000, shared with part_006);
  * `FileSelect`     - the file-backed select-menu variant (second program in
                       index.js): /session-book, the sign-up select menu and
                       /session-end;
  * `FileSlots`      - the file-backed single-slot variant (part_004);
  * `FileSlotsClosed`- the file-backed single-slot variant with a closed flag
                       (part_005, component-handling logic);
  * `FileButtons`    - the file-backed button variant (part_003).

  Discord interactions are modelled as pure functions from the relevant state
  (the global session record, or the persisted sessions store) and the
  interaction data to the new state paired with the reply sent.
-/

namespace PopDriving

/-- A Discord guild role, carrying its snowflake id and its display name. -/
structure GuildRole where
  id : String
  name : String
deriving DecidableEq

/-- A guild member as the handlers see it: the user id, the held roles, and
the Administrator permission bit. -/
structure Member where
  id : String
  roles : List GuildRole
  isAdmin : Bool
deriving DecidableEq

/-- Role test by display name, as in member.roles.cache.some(r => r.name === n). -/
def hasRoleName (m : Member) (n : String) : Bool :=
  m.roles.any (fun r => r.name == n)

/-- Role test by id, as in member.roles.cache.has(i). -/
def hasRoleId (m : Member) (i : String) : Bool :=
  m.roles.any (fun r => r.id == i)

/-- The three sign-up roles of the roleMap tables. -/
inductive SignupRole
  | driver
  | trainee
  | junior
deriving DecidableEq

/-- ROLE_NAMES table mapping a sign-up role to the required Discord role name. -/
def ROLE_NAMES : SignupRole → String
  | .driver => "Driver"
  | .trainee => "Trainee"
  | .junior => "Junior Staff"

/-- Filtering one user id out of a list, as in list.filter(u => u !== uid). -/
def removeUser (l : List String) (uid : String) : List String :=
  l.filter (fun u => u ≠ uid)

/-- Role-id configuration read from the process environment. -/
structure EnvConfig where
  hostId : String
  juniorStaffIds : List String
  traineeId : String
deriving DecidableEq

/-- Assignment sessions[k] = v on the JSON-object store; a later binding for a
key shadows an earlier one for lookups. -/
def storeSet (k : String) (v : α) (store : List (String × α)) : List (String × α) :=
  (k, v) :: store

/-- Deletion delete sessions[k] on the JSON-object store. -/
def storeDelete (k : String) (store : List (String × α)) : List (String × α) :=
  store.filter (fun kv => kv.1 ≠ k)

/-- A roster entry { id, tag } of the file-backed list variants. -/
structure RosterEntry where
  id : String
  tag : String
deriving DecidableEq

namespace Mem

/-- The global in-memory sessionData record of the basic variant. -/
structure SessionData where
  host : Option String
  time : Option String
  duration : Option String
  driver : List String
  trainee : List String
  junior : List String
deriving DecidableEq

/-- Ephemeral replies the button handler of this variant can send. -/
inductive Reply
  | pastSession
  | cancelledConfirm
  | notSignedUp
  | alreadySignedUp (r : SignupRole)
  | missingRole (r : SignupRole)
  | signedUp (r : SignupRole)
deriving DecidableEq

/-- Button events of this variant: the three sign-up buttons and cancel_signup. -/
inductive BtnEvent
  | signup (r : SignupRole)
  | cancel
deriving DecidableEq

/-- Access sessionData[roleKey]. -/
def roster (s : SessionData) : SignupRole → List String
  | .driver => s.driver
  | .trainee => s.trainee
  | .junior => s.junior

/-- Core sign-up logic: remove the caller from all other role lists, then
push the caller onto the requested list. -/
def signupCore (s : SessionData) (uid : String) (r : SignupRole) : SessionData :=
  match r with
  | .driver =>
      { s with driver := s.driver ++ [uid],
               trainee := removeUser s.trainee uid,
               junior := removeUser s.junior uid }
  | .trainee =>
      { s with trainee := s.trainee ++ [uid],
               driver := removeUser s.driver uid,
               junior := removeUser s.junior uid }
  | .junior =>
      { s with junior := s.junior ++ [uid],
               driver := removeUser s.driver uid,
               trainee := removeUser s.trainee uid }

/-- cancel_signup branch: filter the caller out of every list, recording in the
boolean whether some list shrank (the wasSignedUp flag). -/
def cancelAll (s : SessionData) (uid : String) : SessionData × Bool :=
  let driver' := removeUser s.driver uid
  let trainee' := removeUser s.trainee uid
  let junior' := removeUser s.junior uid
  let wasSignedUp := decide (driver'.length < s.driver.length)
    || decide (trainee'.length < s.trainee.length)
    || decide (junior'.length < s.junior.length)
  ({ s with driver := driver', trainee := trainee', junior := junior' }, wasSignedUp)

/-- The button interaction handler: active-message check, then the cancel
branch, then the sign-up branch with its already-signed-up check, role check
and core sign-up logic. -/
def handleButton (active : Option String) (s : SessionData) (msgId : String)
    (m : Member) (ev : BtnEvent) : SessionData × Reply :=
  if active ≠ some msgId then (s, .pastSession)
  else
    match ev with
    | .cancel =>
        let res := cancelAll s m.id
        (res.1, if res.2 then .cancelledConfirm else .notSignedUp)
    | .signup r =>
        if m.id ∈ roster s r then (s, .alreadySignedUp r)
        else if hasRoleName m (ROLE_NAMES r) then (signupCore s m.id r, .signedUp r)
        else (s, .missingRole r)

/-- The /sessionbook command resets the global record from its inputs; the
previous state is discarded entirely. -/
def sessionBook (prior : SessionData) (hostId time duration : String) : SessionData :=
  { host := some hostId, time := some time, duration := some duration,
    driver := [], trainee := [], junior := [] }

/-- Effect of updateSessionMessage on activeSessionMessageId, as a function of
the outcome of the message fetch-and-edit call inside its try block: an error
is caught and the active id cleared to null. -/
def updateSessionMessage (active : Option String) (editResult : Except String Unit) :
    Option String :=
  match active with
  | none => none
  | some mid =>
      match editResult with
      | .ok _ => some mid
      | .error _ => none

/-- Folding a list of button interactions (message id, member, event) over the
session state, with a fixed active message id. -/
def runButtons (active : Option String) :
    SessionData → List (String × Member × BtnEvent) → SessionData
  | s, [] => s
  | s, e :: rest => runButtons active (handleButton active s e.1 e.2.1 e.2.2).1 rest

/-- The number of membership lists of the session that contain a given user. -/
def listsContaining (s : SessionData) (u : String) : Nat :=
  (if u ∈ s.driver then 1 else 0) + (if u ∈ s.trainee then 1 else 0) +
    (if u ∈ s.junior then 1 else 0)

end Mem

namespace PartClosed

/-- The global in-memory sessionData record of the close-button variant. -/
structure SessionData where
  channelId : Option String
  host : Option String
  time : Option String
  duration : Option String
  driver : List String
  trainee : List String
  junior : List String
  isClosed : Bool
deriving DecidableEq

/-- Ephemeral replies the button handler of this variant can send. -/
inductive Reply
  | pastSession
  | notAuthorizedClose
  | closeDone
  | cancelledConfirm
  | notSignedUp
  | closedSession
  | alreadySignedUp (r : SignupRole)
  | missingRole (r : SignupRole)
  | signedUp (r : SignupRole)
deriving DecidableEq

/-- Button events: the sign-up buttons, cancel_slot and close_session. -/
inductive BtnEvent
  | signup (r : SignupRole)
  | cancel
  | close
deriving DecidableEq

/-- Access sessionData[roleKey]. -/
def roster (s : SessionData) : SignupRole → List String
  | .driver => s.driver
  | .trainee => s.trainee
  | .junior => s.junior

/-- Core sign-up logic: remove the caller from all other role lists, then
push onto the requested one. -/
def signupCore (s : SessionData) (uid : String) (r : SignupRole) : SessionData :=
  match r with
  | .driver =>
      { s with driver := s.driver ++ [uid],
               trainee := removeUser s.trainee uid,
               junior := removeUser s.junior uid }
  | .trainee =>
      { s with trainee := s.trainee ++ [uid],
               driver := removeUser s.driver uid,
               junior := removeUser s.junior uid }
  | .junior =>
      { s with junior := s.junior ++ [uid],
               driver := removeUser s.driver uid,
               trainee := removeUser s.trainee uid }

/-- cancel_slot branch: filter the caller out of every list, recording whether
some list shrank. -/
def cancelAll (s : SessionData) (uid : String) : SessionData × Bool :=
  let driver' := removeUser s.driver uid
  let trainee' := removeUser s.trainee uid
  let junior' := removeUser s.junior uid
  let wasSignedUp := decide (driver'.length < s.driver.length)
    || decide (trainee'.length < s.trainee.length)
    || decide (junior'.length < s.junior.length)
  ({ s with driver := driver', trainee := trainee', junior := junior' }, wasSignedUp)

/-- The button interaction handler: active-message check, close_session branch
(host or POP Staff only), cancel_slot branch, then the sign-up branch with its
closed check, already-signed-up check, role check (driver exempt) and core
sign-up logic. -/
def handleButton (active : Option String) (s : SessionData) (msgId : String)
    (m : Member) (ev : BtnEvent) : SessionData × Reply :=
  if active ≠ some msgId then (s, .pastSession)
  else
    match ev with
    | .close =>
        let isHost := s.host == some m.id
        let isStaff := hasRoleName m "POP Staff"
        if !isHost && !isStaff then (s, .notAuthorizedClose)
        else ({ s with isClosed := true }, .closeDone)
    | .cancel =>
        let res := cancelAll s m.id
        (res.1, if res.2 then .cancelledConfirm else .notSignedUp)
    | .signup r =>
        if s.isClosed then (s, .closedSession)
        else if m.id ∈ roster s r then (s, .alreadySignedUp r)
        else if r ≠ .driver && !hasRoleName m (ROLE_NAMES r) then (s, .missingRole r)
        else (signupCore s m.id r, .signedUp r)

/-- The /sessionbook command resets the global record from its inputs, with the
session starting open; the previous state is discarded entirely. -/
def sessionBook (prior : SessionData) (channelId hostId time duration : String) :
    SessionData :=
  { channelId := some channelId, host := some hostId, time := some time,
    duration := some duration, driver := [], trainee := [], junior := [],
    isClosed := false }

/-- Effect of updateSessionMessage on activeSessionMessageId: an early return
when there is no active id or channel id, otherwise a caught fetch-and-edit
error clears the active id to null. -/
def updateSessionMessage (active : Option String) (channelId : Option String)
    (editResult : Except String Unit) : Option String :=
  if active = none ∨ channelId = none then active
  else
    match editResult with
    | .ok _ => active
    | .error _ => none

/-- Folding a list of button interactions over the session state. -/
def runButtons (active : Option String) :
    SessionData → List (String × Member × BtnEvent) → SessionData
  | s, [] => s
  | s, e :: rest => runButtons active (handleButton active s e.1 e.2.1 e.2.2).1 rest

end PartClosed

namespace FileSelect

/-- A stored session record of the file-backed select-menu variant. -/
structure SessionRec where
  id : String
  hostId : String
  channelId : String
  time : String
  description : String
  maxDrivers : Nat
  maxStaff : Nat
  maxTrainees : Nat
  drivers : List RosterEntry
  staff : List RosterEntry
  trainees : List RosterEntry
  status : String
  messageId : String
deriving DecidableEq

/-- The persisted sessions.json store. -/
abbrev Store := List (String × SessionRec)

/-- The roster categories of the select menu. -/
inductive RoleSel
  | driver
  | staff
  | trainee
deriving DecidableEq

/-- Replies (followUps) of this variant. -/
inductive Reply
  | permissionDenied
  | booked
  | sessionGone
  | alreadySignedUp (r : RoleSel)
  | rosterFull
  | signedUp (r : RoleSel)
  | jsTypeError
  | sessionNotFound
  | sessionEnded
  | endFailed
deriving DecidableEq

/-- The /session-book command handler: role allow-list check, then creation of
a fresh session record stored under the interaction id. Negative capacity
inputs are clamped by Math.max(0, _). -/
def sessionBook (cfg : EnvConfig) (store : Store) (m : Member)
    (sid channelId time description : String) (maxD maxS maxT : Int)
    (msgId : String) : Store × Reply :=
  let isHost := hasRoleId m cfg.hostId
  let isJuniorStaff := cfg.juniorStaffIds.any (fun i => hasRoleId m i)
  if !isHost && !isJuniorStaff then (store, .permissionDenied)
  else
    let newSession : SessionRec :=
      { id := sid, hostId := m.id, channelId := channelId, time := time,
        description := description,
        maxDrivers := (max 0 maxD).toNat, maxStaff := (max 0 maxS).toNat,
        maxTrainees := (max 0 maxT).toNat,
        drivers := [], staff := [], trainees := [],
        status := "active", messageId := msgId }
    (storeSet sid newSession store, .booked)

/-- findRosterIndex: the first roster category containing the user, scanning
drivers, staff, trainees in order. -/
def findRoster (s : SessionRec) (uid : String) : Option RoleSel :=
  if s.drivers.any (fun u => u.id == uid) then some .driver
  else if s.staff.any (fun u => u.id == uid) then some .staff
  else if s.trainees.any (fun u => u.id == uid) then some .trainee
  else none

/-- Splice the first entry of the given user out of the given roster. -/
def eraseRoster (s : SessionRec) (cat : RoleSel) (uid : String) : SessionRec :=
  match cat with
  | .driver => { s with drivers := s.drivers.eraseP (fun u => u.id == uid) }
  | .staff => { s with staff := s.staff.eraseP (fun u => u.id == uid) }
  | .trainee => { s with trainees := s.trainees.eraseP (fun u => u.id == uid) }

/-- Capacity check and push of the sign-up handler, run on the in-memory copy
s1 after any splice. For the staff option the source reads the fields
session["maxStaffs"] and session["staffs"], which do not exist: the capacity
test compares undefined (falsy) and the push then throws a TypeError before
any save, leaving the store untouched. -/
def signupProceed (store : Store) (sid uid tag : String) (r : RoleSel)
    (s1 : SessionRec) : Store × Reply :=
  match r with
  | .staff => (store, .jsTypeError)
  | .driver =>
      if 0 < s1.maxDrivers ∧ s1.maxDrivers ≤ s1.drivers.length then (store, .rosterFull)
      else (storeSet sid { s1 with drivers := s1.drivers ++ [⟨uid, tag⟩] } store,
            .signedUp .driver)
  | .trainee =>
      if 0 < s1.maxTrainees ∧ s1.maxTrainees ≤ s1.trainees.length then (store, .rosterFull)
      else (storeSet sid { s1 with trainees := s1.trainees ++ [⟨uid, tag⟩] } store,
            .signedUp .trainee)

/-- The sign-up select-menu handler: load the session, splice the caller out of
a different previous roster in the in-memory copy, then capacity check and
push; saveSessions runs only on the successful push path. -/
def signupSelect (store : Store) (sid uid tag : String) (r : RoleSel) :
    Store × Reply :=
  match List.lookup sid store with
  | none => (store, .sessionGone)
  | some s =>
      match findRoster s uid with
      | none => signupProceed store sid uid tag r s
      | some cat =>
          if cat = r then (store, .alreadySignedUp cat)
          else signupProceed store sid uid tag r (eraseRoster s cat uid)

/-- Search the store for the session whose messageId matches. -/
def findByMessage : Store → String → Option String
  | [], _ => none
  | (k, v) :: rest, msgId =>
      if v.messageId == msgId then some k else findByMessage rest msgId

/-- The /session-end command handler: role allow-list check, then locate the
session by message id and run the try block that fetches and edits the
announcement message into its archived form (components removed). The record
is deleted from the store only after that edit succeeds; a failure of the
fetch-and-edit call (modelled by the editResult argument) is caught, an error
reply is sent, and the store is left unchanged. -/
def sessionEnd (cfg : EnvConfig) (store : Store) (m : Member)
    (targetMessageId : String) (editResult : Except String Unit) :
    Store × Reply :=
  let isHost := hasRoleId m cfg.hostId
  let isJuniorStaff := cfg.juniorStaffIds.any (fun i => hasRoleId m i)
  if !isHost && !isJuniorStaff then (store, .permissionDenied)
  else
    match findByMessage store targetMessageId with
    | none => (store, .sessionNotFound)
    | some sid =>
        match editResult with
        | .ok _ => (storeDelete sid store, .sessionEnded)
        | .error _ => (store, .endFailed)

end FileSelect

namespace FileSlots

/-- A stored session record of the single-slot variant: each role is held by at
most one user id. -/
structure SessionRec where
  host : String
  time : String
  duration : String
  driver : Option String
  trainee : Option String
  junior : Option String
deriving DecidableEq

/-- The persisted sessions.json store. -/
abbrev Store := List (String × SessionRec)

/-- Replies of this variant. -/
inductive Reply
  | permissionDenied
  | booked
  | sessionNotFound
  | notSignedUp
  | cancelled
  | spotTaken (r : SignupRole)
  | signedUp (r : SignupRole)
deriving DecidableEq

/-- Button events: the three role buttons and cancel. -/
inductive BtnEvent
  | signup (r : SignupRole)
  | cancel
deriving DecidableEq

/-- The /sessionbook permission check: host role, a junior staff role, or the
trainee role. -/
def isAllowed (cfg : EnvConfig) (m : Member) : Bool :=
  let userRoles := m.roles.map (fun r => r.id)
  userRoles.contains cfg.hostId
    || userRoles.any (fun r => cfg.juniorStaffIds.contains r)
    || userRoles.contains cfg.traineeId

/-- The /sessionbook command handler: allow-list check, then a fresh record
with empty slots stored under the interaction id. -/
def sessionBook (cfg : EnvConfig) (store : Store) (m : Member)
    (sid time duration : String) : Store × Reply :=
  if !isAllowed cfg m then (store, .permissionDenied)
  else
    (storeSet sid { host := m.id, time := time, duration := duration,
                    driver := none, trainee := none, junior := none } store,
     .booked)

/-- Access session[role]. -/
def slotOf (s : SessionRec) : SignupRole → Option String
  | .driver => s.driver
  | .trainee => s.trainee
  | .junior => s.junior

/-- Assign session[role] = uid. -/
def setSlot (s : SessionRec) (r : SignupRole) (uid : String) : SessionRec :=
  match r with
  | .driver => { s with driver := some uid }
  | .trainee => { s with trainee := some uid }
  | .junior => { s with junior := some uid }

/-- Null out every slot held by the given user. -/
def clearUser (s : SessionRec) (uid : String) : SessionRec :=
  { s with driver := if s.driver == some uid then none else s.driver,
           trainee := if s.trainee == some uid then none else s.trainee,
           junior := if s.junior == some uid then none else s.junior }

/-- The button handler: load the session; cancel clears the caller's slots and
saves only if something changed; sign-up takes the requested slot if free,
without any role check and without clearing the caller's other slots. -/
def handleButton (store : Store) (sid uid : String) (ev : BtnEvent) :
    Store × Reply :=
  match List.lookup sid store with
  | none => (store, .sessionNotFound)
  | some s =>
      match ev with
      | .cancel =>
          let updated := s.driver == some uid || s.trainee == some uid
            || s.junior == some uid
          if !updated then (store, .notSignedUp)
          else (storeSet sid (clearUser s uid) store, .cancelled)
      | .signup r =>
          if (slotOf s r).isSome then (store, .spotTaken r)
          else (storeSet sid (setSlot s r uid) store, .signedUp r)

end FileSlots

namespace FileSlotsClosed

/-- A stored session record of the single-slot variant with a closed flag. -/
structure SessionRec where
  host : String
  time : String
  duration : String
  driver : Option String
  trainee : Option String
  junior : Option String
  closed : Bool
deriving DecidableEq

/-- The persisted sessions.json store. -/
abbrev Store := List (String × SessionRec)

/-- Replies of this variant. -/
inductive Reply
  | sessionNotFound
  | alreadyClosed
  | sessionClosed
  | spotTaken (r : SignupRole)
  | signedUp (r : SignupRole)
deriving DecidableEq

/-- Component events: the three role buttons and the cancel button, which in
this variant closes the session. -/
inductive CompEvent
  | signup (r : SignupRole)
  | cancel
deriving DecidableEq

/-- Access session[role]. -/
def slotOf (s : SessionRec) : SignupRole → Option String
  | .driver => s.driver
  | .trainee => s.trainee
  | .junior => s.junior

/-- Assign session[role] = uid. -/
def setSlot (s : SessionRec) (r : SignupRole) (uid : String) : SessionRec :=
  match r with
  | .driver => { s with driver := some uid }
  | .trainee => { s with trainee := some uid }
  | .junior => { s with junior := some uid }

/-- Null out every slot held by the given user. -/
def clearUser (s : SessionRec) (uid : String) : SessionRec :=
  { s with driver := if s.driver == some uid then none else s.driver,
           trainee := if s.trainee == some uid then none else s.trainee,
           junior := if s.junior == some uid then none else s.junior }

/-- The component-handling logic on a loaded session: a closed session rejects
everything; the cancel branch sets the closed flag with no authorization
check; sign-up first clears the caller's previous slot, then takes the
requested slot if free, saving only on success. -/
def handleComponent (store : Store) (sid : String) (m : Member)
    (ev : CompEvent) : Store × Reply :=
  match List.lookup sid store with
  | none => (store, .sessionNotFound)
  | some s =>
      if s.closed then (store, .alreadyClosed)
      else
        match ev with
        | .cancel => (storeSet sid { s with closed := true } store, .sessionClosed)
        | .signup r =>
            let s1 := clearUser s m.id
            if (slotOf s1 r).isSome then (store, .spotTaken r)
            else (storeSet sid (setSlot s1 r m.id) store, .signedUp r)

/-- Folding a list of component interactions (session id, member, event) over
the persisted store. -/
def runComponents : Store → List (String × Member × CompEvent) → Store
  | st, [] => st
  | st, e :: rest => runComponents (handleComponent st e.1 e.2.1 e.2.2).1 rest

end FileSlotsClosed

namespace FileButtons

/-- A stored session record of the file-backed button variant. -/
structure SessionRec where
  id : String
  time : String
  duration : String
  channelId : String
  hostId : String
  drivers : List RosterEntry
  juniorstaff : List RosterEntry
  trainees : List RosterEntry
  messageId : String
deriving DecidableEq

/-- The persisted sessions.json store. -/
abbrev Store := List (String × SessionRec)

/-- Replies of this variant needed here. -/
inductive Reply
  | permissionDenied
  | booked
deriving DecidableEq

/-- The /sessionbook command handler: the caller must be the configured host
user or an Administrator; then a fresh record with empty rosters is stored
under the generated session id, with the posted message id recorded. -/
def sessionBook (hostIdEnv : String) (store : Store) (m : Member)
    (sid time duration channelId msgId : String) : Store × Reply :=
  if m.id != hostIdEnv && !m.isAdmin then (store, .permissionDenied)
  else
    (storeSet sid { id := sid, time := time, duration := duration,
                    channelId := channelId, hostId := m.id,
                    drivers := [], juniorstaff := [], trainees := [],
                    messageId := msgId } store,
     .booked)

end FileButtons

/-! Helper lemmas about the shared list operations. -/

theorem mem_removeUser {l : List String} {u v : String} :
    v ∈ removeUser l u ↔ v ∈ l ∧ v ≠ u := by
  simp [removeUser]

theorem not_mem_removeUser (l : List String) (u : String) :
    u ∉ removeUser l u := by
  simp [mem_removeUser]

theorem removeUser_length_le (l : List String) (u : String) :
    (removeUser l u).length ≤ l.length :=
  List.length_filter_le _ _

theorem removeUser_length_lt {l : List String} {u : String} :
    (removeUser l u).length < l.length ↔ u ∈ l := by
  induction l with
  | nil => simp [removeUser]
  | cons a t ih =>
      by_cases hau : a = u
      · subst hau
        constructor
        · intro _
          exact List.mem_cons_self a t
        · intro _
          have hle := removeUser_length_le t a
          have : removeUser (a :: t) a = removeUser t a := by
            simp [removeUser]
          rw [this]
          simpa [Nat.lt_succ_iff] using hle
      · have hcons : removeUser (a :: t) u = a :: removeUser t u := by
          simp [removeUser, hau]
        rw [hcons]
        simp only [List.length_cons, Nat.succ_lt_succ_iff, List.mem_cons]
        rw [ih]
        constructor
        · exact Or.inr
        · intro h
          rcases h with h | h
          · exact absurd h.symm hau
          · exact h

/-! Lemmas for the in-memory list variant `Mem`. -/

theorem Mem.listsContaining_cancelAll (s : SessionData) (uid u : String) :
    listsContaining (cancelAll s uid).1 u ≤ listsContaining s u := by
  simp only [cancelAll, listsContaining]
  by_cases h1 : u ∈ s.driver <;> by_cases h2 : u ∈ s.trainee <;>
    by_cases h3 : u ∈ s.junior <;>
    simp [mem_removeUser, h1, h2, h3] <;> split_ifs <;> omega

theorem Mem.listsContaining_signupCore (s : SessionData) (uid u : String)
    (r : SignupRole) (h : listsContaining s u ≤ 1) :
    listsContaining (signupCore s uid r) u ≤ 1 := by
  by_cases hu : u = uid
  · subst hu
    cases r <;>
      simp [signupCore, listsContaining, mem_removeUser, List.mem_append]
  · cases r <;>
      simp only [signupCore, listsContaining, List.mem_append,
        List.mem_singleton, mem_removeUser] at h ⊢ <;>
      by_cases h1 : u ∈ s.driver <;> by_cases h2 : u ∈ s.trainee <;>
      by_cases h3 : u ∈ s.junior <;>
      simp [h1, h2, h3, hu] at h ⊢ <;> omega

theorem Mem.handleButton_atMostOne (active : Option String) (s : SessionData)
    (msgId : String) (m : Member) (ev : BtnEvent) (u : String)
    (h : listsContaining s u ≤ 1) :
    listsContaining (handleButton active s msgId m ev).1 u ≤ 1 := by
  cases ev with
  | cancel =>
      unfold handleButton
      split
      · exact h
      · exact le_trans (listsContaining_cancelAll s m.id u) h
  | signup r =>
      unfold handleButton
      split
      · exact h
      · simp only
        split
        · exact h
        · split
          · exact listsContaining_signupCore s m.id u r h
          · exact h

theorem Mem.runButtons_atMostOne (active : Option String)
    (evs : List (String × Member × BtnEvent)) (u : String) :
    ∀ s : SessionData, listsContaining s u ≤ 1 →
      listsContaining (runButtons active s evs) u ≤ 1 := by
  induction evs with
  | nil => intro s h; simpa [runButtons] using h
  | cons e rest ih =>
      intro s h
      simp only [runButtons]
      exact ih _ (handleButton_atMostOne active s e.1 e.2.1 e.2.2 u h)

theorem Mem.listsContaining_sessionBook (prior : SessionData)
    (hostId time duration : String) (u : String) :
    listsContaining (sessionBook prior hostId time duration) u = 0 := by
  simp [sessionBook, listsContaining]

/-! Claim theorems. -/

/-- C1 (amended): in the in-memory list variant, starting from a freshly
booked session, after any sequence of sign-up and cancel button interactions
every user appears in at most one of the three membership lists; and a user
currently in the Driver list who clicks the Trainee sign-up (holding the
Trainee role, not already a trainee, on the active message) ends up in the
Trainee list and not in the Driver list. In the file-backed single-slot
variant (part_004) this fails, see the counterexample. -/
theorem C1_inMemory_atMostOne
    (a : Option String) (msg : String) (m : Member) (s : Mem.SessionData)
    (hmem : m.id ∈ s.driver)
    (hrole : hasRoleName m (ROLE_NAMES .trainee) = true)
    (hnot : m.id ∉ s.trainee)
    (hact : a = some msg) :
    (∀ (prior : Mem.SessionData) (h t d : String)
        (evs : List (String × Member × Mem.BtnEvent)) (v : String),
        Mem.listsContaining
          (Mem.runButtons a (Mem.sessionBook prior h t d) evs) v ≤ 1) ∧
    (m.id ∈ ((Mem.handleButton a s msg m (.signup .trainee)).1).trainee ∧
      m.id ∉ ((Mem.handleButton a s msg m (.signup .trainee)).1).driver) := by
  constructor
  · intro prior h t d evs v
    apply Mem.runButtons_atMostOne
    rw [Mem.listsContaining_sessionBook]
    omega
  · have hcond : ¬ (a ≠ some msg) := by simp [hact]
    unfold Mem.handleButton
    rw [if_neg hcond]
    simp only [Mem.roster]
    rw [if_neg hnot, if_pos hrole]
    constructor
    · simp [Mem.signupCore]
    · simp only [Mem.signupCore]
      exact not_mem_removeUser s.driver m.id

/-- C1 witness: a concrete driver clicking the Trainee button while holding
the Trainee role moves to the trainee list and leaves the driver list. -/
theorem C1_inMemory_atMostOne_witness :
    ("u1" ∈ ((Mem.handleButton (some "M")
        ⟨some "h", some "t", some "d", ["u1"], [], []⟩ "M"
        ⟨"u1", [⟨"r1", "Trainee"⟩], false⟩ (.signup .trainee)).1).trainee ∧
      "u1" ∉ ((Mem.handleButton (some "M")
        ⟨some "h", some "t", some "d", ["u1"], [], []⟩ "M"
        ⟨"u1", [⟨"r1", "Trainee"⟩], false⟩ (.signup .trainee)).1).driver) :=
  (C1_inMemory_atMostOne (some "M") "M" ⟨"u1", [⟨"r1", "Trainee"⟩], false⟩
    ⟨some "h", some "t", some "d", ["u1"], [], []⟩
    (by decide) (by decide) (by decide) rfl).2

/-- C1 counterexample: in part_004, a user holding the Driver slot who clicks
the Trainee button is assigned the Trainee slot while remaining in the Driver
slot, so the user appears in two membership lists at once. -/
theorem C1_counterexample_part004 :
    (List.lookup "S1" (FileSlots.handleButton
        [("S1", (⟨"h", "t", "d", some "u1", none, none⟩ : FileSlots.SessionRec))]
        "S1" "u1" (.signup .trainee)).1).map
      (fun s => (s.driver, s.trainee)) = some (some "u1", some "u1") := by
  decide

/-- C2 (amended): on the active session message, a caller who does not hold
the Discord role whose name matches the requested role is answered with the
required-role error and no membership list changes; this holds for every role
in the basic variant, and for the Trainee and Junior Staff roles in the
close-button variant — whose Driver sign-up is exempt from the role check,
see the counterexample (part_004 performs no role check at all). -/
theorem C2_roleCheck
    (a : Option String) (msg : String) (m : Member) (r : SignupRole)
    (sM : Mem.SessionData) (sP : PartClosed.SessionData)
    (hact : a = some msg)
    (hrole : hasRoleName m (ROLE_NAMES r) = false)
    (hnotM : m.id ∉ Mem.roster sM r)
    (hopenP : sP.isClosed = false)
    (hnotP : m.id ∉ PartClosed.roster sP r) :
    Mem.handleButton a sM msg m (.signup r) = (sM, .missingRole r) ∧
    (r ≠ .driver →
      PartClosed.handleButton a sP msg m (.signup r) =
        (sP, .missingRole r)) := by
  have hcond : ¬ (a ≠ some msg) := by simp [hact]
  constructor
  · unfold Mem.handleButton
    rw [if_neg hcond]
    simp only
    rw [if_neg hnotM, if_neg (by simp [hrole])]
  · intro hnd
    unfold PartClosed.handleButton
    rw [if_neg hcond]
    simp only
    rw [if_neg (by simp [hopenP]), if_neg hnotP,
      if_pos (by simp [hrole, hnd])]

/-- C2 witness: a concrete roleless caller clicking the Driver button is
rejected in the basic variant (where the Driver role is checked too), and one
clicking the Trainee button is rejected in the close-button variant, in both
cases with the state unchanged. -/
theorem C2_roleCheck_witness :
    Mem.handleButton (some "M") ⟨some "h", some "t", some "d", [], [], []⟩
        "M" ⟨"u1", [], false⟩ (.signup .driver) =
      (⟨some "h", some "t", some "d", [], [], []⟩, .missingRole .driver) ∧
    PartClosed.handleButton (some "M")
        ⟨some "C", some "h", some "t", some "d", [], [], [], false⟩ "M"
        ⟨"u1", [], false⟩ (.signup .trainee) =
      (⟨some "C", some "h", some "t", some "d", [], [], [], false⟩,
        .missingRole .trainee) :=
  ⟨(C2_roleCheck (some "M") "M" ⟨"u1", [], false⟩ .driver
      ⟨some "h", some "t", some "d", [], [], []⟩
      ⟨some "C", some "h", some "t", some "d", [], [], [], false⟩
      rfl (by decide) (by decide) (by decide) (by decide)).1,
    (C2_roleCheck (some "M") "M" ⟨"u1", [], false⟩ .trainee
      ⟨some "h", some "t", some "d", [], [], []⟩
      ⟨some "C", some "h", some "t", some "d", [], [], [], false⟩
      rfl (by decide) (by decide) (by decide) (by decide)).2 (by decide)⟩

/-- C2 counterexample: in the close-button variant (part_000), a caller with
no Discord roles at all who clicks the Driver sign-up is inserted into the
Driver list and receives the success reply, not the required-role error. -/
theorem C2_counterexample_driverExempt :
    PartClosed.handleButton (some "M")
        ⟨some "C", some "h", some "t", some "d", [], [], [], false⟩ "M"
        (⟨"u1", [], false⟩ : Member) (.signup .driver) =
      (⟨some "C", some "h", some "t", some "d", ["u1"], [], [], false⟩,
        .signedUp .driver) ∧
    hasRoleName (⟨"u1", [], false⟩ : Member) (ROLE_NAMES .driver) = false := by
  constructor
  · decide
  · decide

/-- C3 (amended): in each booking-command variant, an invoking member who
fails that variant's configured authorization check receives the
permission-denied reply and the sessions store is unchanged, so a record is
created only for callers passing the check; part_004's configured allow-list
additionally contains the trainee role id, beyond the host role, the junior
staff roles and Administrator — see the counterexample. -/
theorem C3_bookAuthorization
    (cfg : EnvConfig) (hostEnv : String)
    (storeA : FileSelect.Store) (storeB : FileSlots.Store)
    (storeC : FileButtons.Store) (mA mB mC : Member)
    (sid channelId time description duration msgId : String)
    (maxD maxS maxT : Int)
    (hA : hasRoleId mA cfg.hostId = false ∧
      cfg.juniorStaffIds.any (fun i => hasRoleId mA i) = false)
    (hB : FileSlots.isAllowed cfg mB = false)
    (hC : mC.id ≠ hostEnv ∧ mC.isAdmin = false) :
    FileSelect.sessionBook cfg storeA mA sid channelId time description
        maxD maxS maxT msgId = (storeA, .permissionDenied) ∧
    FileSlots.sessionBook cfg storeB mB sid time duration =
      (storeB, .permissionDenied) ∧
    FileButtons.sessionBook hostEnv storeC mC sid time duration channelId
        msgId = (storeC, .permissionDenied) := by
  refine ⟨?_, ?_, ?_⟩
  · unfold FileSelect.sessionBook
    rw [if_pos (by simp [hA.1, hA.2])]
  · unfold FileSlots.sessionBook
    rw [if_pos (by simp [hB])]
  · unfold FileButtons.sessionBook
    rw [if_pos (by simp [hC.1, hC.2])]

/-- C3 witness: a concrete caller holding no roles is denied by all three
booking handlers and no record is stored. -/
theorem C3_bookAuthorization_witness :
    FileSelect.sessionBook ⟨"H", ["J"], "T"⟩ [] ⟨"u1", [], false⟩ "S" "C"
        "18:30" "desc" 0 0 0 "M" = ([], .permissionDenied) ∧
    FileSlots.sessionBook ⟨"H", ["J"], "T"⟩ [] ⟨"u1", [], false⟩ "S" "18:30"
        "60" = ([], .permissionDenied) ∧
    FileButtons.sessionBook "H" [] ⟨"u1", [], false⟩ "S" "18:30" "60" "C"
        "M" = ([], .permissionDenied) :=
  C3_bookAuthorization ⟨"H", ["J"], "T"⟩ "H" [] [] [] ⟨"u1", [], false⟩
    ⟨"u1", [], false⟩ ⟨"u1", [], false⟩ "S" "C" "18:30" "desc" "60" "M"
    0 0 0 (by decide) (by decide) (by decide)

/-- C3 counterexample: in part_004, a caller holding only the configured
trainee role — neither the host role, nor a junior staff role, nor
Administrator — passes the permission check and a session record is created
and stored. -/
theorem C3_counterexample_traineeAllowed :
    (List.lookup "S1" (FileSlots.sessionBook ⟨"H", ["J"], "T"⟩ []
        (⟨"u1", [⟨"T", "Trainee"⟩], false⟩ : Member) "S1" "18:30" "60").1 =
      some ⟨"u1", "18:30", "60", none, none, none⟩) ∧
    (FileSlots.sessionBook ⟨"H", ["J"], "T"⟩ []
        (⟨"u1", [⟨"T", "Trainee"⟩], false⟩ : Member) "S1" "18:30" "60").2 =
      .booked ∧
    hasRoleId (⟨"u1", [⟨"T", "Trainee"⟩], false⟩ : Member) "H" = false ∧
    hasRoleId (⟨"u1", [⟨"T", "Trainee"⟩], false⟩ : Member) "J" = false ∧
    (⟨"u1", [⟨"T", "Trainee"⟩], false⟩ : Member).isAdmin = false := by
  refine ⟨by decide, by decide, by decide, by decide, by decide⟩

/-- C4 (amended): the close_session button (part_000) succeeds only for the
session's host or a POP Staff member — an unauthorized caller gets an error
reply with the session unchanged, an authorized caller flips the closed flag;
and the /session-end command (index.js) run by a caller without the host role
or a junior staff role is denied with the store unchanged, while on success
the session is removed from the store. The exception is the cancel branch of
part_005, which closes the session with no authorization check — see the
counterexample. -/
theorem C4_closeAuthorization
    (a : Option String) (msg : String) (s : PartClosed.SessionData)
    (m : Member) (cfg : EnvConfig) (store : FileSelect.Store) (m2 : Member)
    (target : String)
    (hact : a = some msg)
    (hpc : (s.host == some m.id) = false ∧ hasRoleName m "POP Staff" = false)
    (hv2 : hasRoleId m2 cfg.hostId = false ∧
      cfg.juniorStaffIds.any (fun i => hasRoleId m2 i) = false) :
    PartClosed.handleButton a s msg m .close = (s, .notAuthorizedClose) ∧
    (∀ er : Except String Unit,
      FileSelect.sessionEnd cfg store m2 target er =
        (store, .permissionDenied)) ∧
    (∀ m3 : Member, ((s.host == some m3.id) = true ∨
        hasRoleName m3 "POP Staff" = true) →
      PartClosed.handleButton a s msg m3 .close =
        ({ s with isClosed := true }, .closeDone)) ∧
    (∀ sid, FileSelect.findByMessage store target = some sid →
      ∀ m3 : Member, hasRoleId m3 cfg.hostId = true →
        (FileSelect.sessionEnd cfg store m3 target (.ok ()) =
            (storeDelete sid store, .sessionEnded)) ∧
        (∀ e : String, FileSelect.sessionEnd cfg store m3 target (.error e) =
            (store, .endFailed))) := by
  have hcond : ¬ (a ≠ some msg) := by simp [hact]
  refine ⟨?_, ?_, ?_, ?_⟩
  · unfold PartClosed.handleButton
    rw [if_neg hcond]
    simp only
    rw [if_pos (by simp [hpc.1, hpc.2])]
  · intro er
    unfold FileSelect.sessionEnd
    rw [if_pos (by simp [hv2.1, hv2.2])]
  · intro m3 h3
    unfold PartClosed.handleButton
    rw [if_neg hcond]
    simp only
    rw [if_neg ?_]
    rcases h3 with h3 | h3 <;> simp [h3]
  · intro sid hfind m3 h3
    constructor
    · unfold FileSelect.sessionEnd
      rw [if_neg (by simp [h3]), hfind]
    · intro e
      unfold FileSelect.sessionEnd
      rw [if_neg (by simp [h3]), hfind]

/-- C4 witness: a concrete caller who is neither host nor POP Staff is
refused by the close button, one without the configured roles is denied by
the end command even when the archive edit would fail, and the host closing
succeeds. -/
theorem C4_closeAuthorization_witness :
    PartClosed.handleButton (some "M")
        ⟨some "C", some "h", some "t", some "d", [], [], [], false⟩ "M"
        ⟨"u9", [], false⟩ .close =
      (⟨some "C", some "h", some "t", some "d", [], [], [], false⟩,
        .notAuthorizedClose) ∧
    FileSelect.sessionEnd ⟨"H", ["J"], "T"⟩ [] ⟨"u9", [], false⟩ "X"
        (.error "net") = ([], .permissionDenied) ∧
    PartClosed.handleButton (some "M")
        ⟨some "C", some "h", some "t", some "d", [], [], [], false⟩ "M"
        ⟨"h", [], false⟩ .close =
      (⟨some "C", some "h", some "t", some "d", [], [], [], true⟩,
        .closeDone) :=
  have main := C4_closeAuthorization (some "M") "M"
    ⟨some "C", some "h", some "t", some "d", [], [], [], false⟩
    ⟨"u9", [], false⟩ ⟨"H", ["J"], "T"⟩ [] ⟨"u9", [], false⟩ "X"
    rfl (by decide) (by decide)
  ⟨main.1, main.2.1 (.error "net"),
    main.2.2.1 ⟨"h", [], false⟩ (Or.inl (by decide))⟩

/-- C4 counterexample: in part_005 a caller who is not the host and holds no
roles clicks the Cancel button and the session is nevertheless marked closed
with a success reply — the close is not restricted to the host or staff. -/
theorem C4_counterexample_cancelCloses :
    ((List.lookup "S1" (FileSlotsClosed.handleComponent
        [("S1", (⟨"h", "t", "d", none, none, none, false⟩ :
          FileSlotsClosed.SessionRec))]
        "S1" (⟨"u2", [], false⟩ : Member) .cancel).1).map
      (fun s => s.closed) = some true) ∧
    (FileSlotsClosed.handleComponent
        [("S1", (⟨"h", "t", "d", none, none, none, false⟩ :
          FileSlotsClosed.SessionRec))]
        "S1" (⟨"u2", [], false⟩ : Member) .cancel).2 = .sessionClosed ∧
    ("u2" : String) ≠ "h" ∧
    (⟨"u2", [], false⟩ : Member).roles = [] := by
  refine ⟨by decide, by decide, by decide, by decide⟩

/-- Once the closed flag of the part_000 session is set, no single button
interaction clears it. -/
theorem PartClosed.handleButton_closed_mono (active : Option String)
    (msgId : String) (m : Member) (ev : BtnEvent) (s : SessionData)
    (h : s.isClosed = true) :
    ((handleButton active s msgId m ev).1).isClosed = true := by
  cases ev with
  | close =>
      unfold handleButton
      split
      · exact h
      · simp only
        split
        · exact h
        · rfl
  | cancel =>
      unfold handleButton
      split
      · exact h
      · simpa [cancelAll] using h
  | signup r =>
      unfold handleButton
      split
      · exact h
      · simp [h]

/-- Once the closed flag of the part_000 session is set, no sequence of
button interactions clears it. -/
theorem PartClosed.runButtons_closed_mono (active : Option String)
    (evs : List (String × Member × BtnEvent)) :
    ∀ s : SessionData, s.isClosed = true →
      (runButtons active s evs).isClosed = true := by
  induction evs with
  | nil => intro s h; simpa [runButtons] using h
  | cons e rest ih =>
      intro s h
      simp only [runButtons]
      exact ih _ (handleButton_closed_mono active e.1 e.2.1 e.2.2 s h)

/-- A closed part_005 session rejects every component interaction with the
store unchanged. -/
theorem FileSlotsClosed.handleComponent_rejects_closed
    (store : Store) (sid : String) (m : Member) (ev : CompEvent)
    (s5 : SessionRec) (hlook : List.lookup sid store = some s5)
    (hc : s5.closed = true) :
    handleComponent store sid m ev = (store, .alreadyClosed) := by
  unfold handleComponent
  rw [hlook]
  dsimp only
  rw [if_pos hc]

/-- A part_005 session whose stored record is closed stays closed after any
single component interaction, on any session id. -/
theorem FileSlotsClosed.handleComponent_closed_mono
    (store : Store) (sid sid' : String) (m : Member) (ev : CompEvent)
    (h : (List.lookup sid store).map (fun t => t.closed) = some true) :
    (List.lookup sid (handleComponent store sid' m ev).1).map
      (fun t => t.closed) = some true := by
  unfold handleComponent
  cases hl : List.lookup sid' store with
  | none => exact h
  | some s2 =>
      dsimp only
      by_cases hc : s2.closed = true
      · rw [if_pos hc]
        exact h
      · rw [if_neg hc]
        cases ev with
        | cancel =>
            dsimp only [storeSet]
            by_cases hs : sid = sid'
            · subst hs
              simp [List.lookup]
            · have hbeq : (sid == sid') = false := by simpa using hs
              simpa [List.lookup, hbeq] using h
        | signup r =>
            dsimp only
            split
            · exact h
            · dsimp only [storeSet]
              by_cases hs : sid = sid'
              · subst hs
                rw [hl] at h
                simp at h
                exact absurd h hc
              · have hbeq : (sid == sid') = false := by simpa using hs
                simpa [List.lookup, hbeq] using h

/-- A part_005 session whose stored record is closed stays closed after any
sequence of component interactions. -/
theorem FileSlotsClosed.runComponents_closed_mono
    (evs : List (String × Member × CompEvent)) :
    ∀ (store : Store) (sid : String),
      (List.lookup sid store).map (fun t => t.closed) = some true →
      (List.lookup sid (runComponents store evs)).map
        (fun t => t.closed) = some true := by
  induction evs with
  | nil => intro store sid h; simpa [runComponents] using h
  | cons e rest ih =>
      intro store sid h
      simp only [runComponents]
      exact ih _ sid (handleComponent_closed_mono store sid e.1 e.2.1 e.2.2 h)

/-- C5: once the session's closed flag is set, every sign-up interaction on
that session is rejected with a closed-session reply and the session record —
in particular every membership list — is unchanged, and no interaction or
sequence of interactions ever clears the flag: in the close-button in-memory
family (part_000/002/006) this holds for the global record, and in part_005
a closed stored session rejects every component interaction with the store
unchanged and its flag survives any interaction sequence. -/
theorem C5_closedSessionFrozen (a : Option String)
    (s : PartClosed.SessionData) (hclosed : s.isClosed = true)
    (store5 : FileSlotsClosed.Store) (sid : String)
    (s5 : FileSlotsClosed.SessionRec)
    (hlook5 : List.lookup sid store5 = some s5)
    (hc5 : s5.closed = true) :
    (∀ (msg : String) (m : Member) (r : SignupRole), a = some msg →
      PartClosed.handleButton a s msg m (.signup r) = (s, .closedSession)) ∧
    (∀ (msg : String) (m : Member) (ev : PartClosed.BtnEvent),
      ((PartClosed.handleButton a s msg m ev).1).isClosed = true) ∧
    (∀ evs : List (String × Member × PartClosed.BtnEvent),
      (PartClosed.runButtons a s evs).isClosed = true) ∧
    (∀ (m : Member) (ev : FileSlotsClosed.CompEvent),
      FileSlotsClosed.handleComponent store5 sid m ev =
        (store5, .alreadyClosed)) ∧
    (∀ (sid' : String) (m : Member) (ev : FileSlotsClosed.CompEvent),
      (List.lookup sid
          (FileSlotsClosed.handleComponent store5 sid' m ev).1).map
        (fun t => t.closed) = some true) ∧
    (∀ evs : List (String × Member × FileSlotsClosed.CompEvent),
      (List.lookup sid (FileSlotsClosed.runComponents store5 evs)).map
        (fun t => t.closed) = some true) := by
  have h5 : (List.lookup sid store5).map
      (fun t => t.closed) = some true := by
    rw [hlook5]
    simp [hc5]
  refine ⟨?_, ?_, ?_, ?_, ?_, ?_⟩
  · intro msg m r hact
    have hcond : ¬ (a ≠ some msg) := by simp [hact]
    unfold PartClosed.handleButton
    rw [if_neg hcond]
    simp only
    rw [if_pos hclosed]
  · intro msg m ev
    exact PartClosed.handleButton_closed_mono a msg m ev s hclosed
  · intro evs
    exact PartClosed.runButtons_closed_mono a evs s hclosed
  · intro m ev
    exact FileSlotsClosed.handleComponent_rejects_closed store5 sid m ev s5
      hlook5 hc5
  · intro sid' m ev
    exact FileSlotsClosed.handleComponent_closed_mono store5 sid sid' m ev h5
  · intro evs
    exact FileSlotsClosed.runComponents_closed_mono evs store5 sid h5

/-- C5 witness: on a concrete closed session, a Trainee sign-up click by a
fully qualified member is rejected with the closed-session reply and the
record unchanged, and a sign-up on a concrete closed part_005 session is
rejected with the store unchanged. -/
theorem C5_closedSessionFrozen_witness :
    PartClosed.handleButton (some "M")
        ⟨some "C", some "h", some "t", some "d", ["u2"], [], [], true⟩ "M"
        ⟨"u1", [⟨"r1", "Trainee"⟩], false⟩ (.signup .trainee) =
      (⟨some "C", some "h", some "t", some "d", ["u2"], [], [], true⟩,
        .closedSession) ∧
    FileSlotsClosed.handleComponent
        [("S1", ⟨"h", "t", "d", none, none, none, true⟩)] "S1"
        ⟨"u1", [], false⟩ (.signup .trainee) =
      ([("S1", ⟨"h", "t", "d", none, none, none, true⟩)], .alreadyClosed) :=
  have main := C5_closedSessionFrozen (some "M")
    ⟨some "C", some "h", some "t", some "d", ["u2"], [], [], true⟩
    (by decide) [("S1", ⟨"h", "t", "d", none, none, none, true⟩)] "S1"
    ⟨"h", "t", "d", none, none, none, true⟩ (by decide) (by decide)
  ⟨main.1 "M" ⟨"u1", [⟨"r1", "Trainee"⟩], false⟩ .trainee rfl,
    main.2.2.2.1 ⟨"u1", [], false⟩ (.signup .trainee)⟩

/-- C6: the booking command produces a fresh session record with the given
host, time and duration, all membership lists empty and the session open; in
the in-memory variants the record replaces the previous global session
entirely (the prior state is universally quantified and does not influence
the result), and in the file-backed variant (part_003) an authorized caller's
record is stored under the generated session id while the lookup of every
other session id is untouched. -/
theorem C6_bookFreshSession
    (hostEnv : String) (mC : Member) (storeC : FileButtons.Store)
    (sid time duration channelId msgId : String)
    (hauth : mC.id = hostEnv ∨ mC.isAdmin = true) :
    (∀ (prior : Mem.SessionData) (h t d : String),
      Mem.sessionBook prior h t d =
        ⟨some h, some t, some d, [], [], []⟩) ∧
    (∀ (prior : PartClosed.SessionData) (c h t d : String),
      PartClosed.sessionBook prior c h t d =
        ⟨some c, some h, some t, some d, [], [], [], false⟩) ∧
    (List.lookup sid
        (FileButtons.sessionBook hostEnv storeC mC sid time duration
          channelId msgId).1 =
      some ⟨sid, time, duration, channelId, mC.id, [], [], [], msgId⟩) ∧
    (∀ sid', sid' ≠ sid →
      List.lookup sid'
          (FileButtons.sessionBook hostEnv storeC mC sid time duration
            channelId msgId).1 =
        List.lookup sid' storeC) := by
  have hcond : (mC.id != hostEnv && !mC.isAdmin) = false := by
    rcases hauth with h | h <;> simp [h]
  refine ⟨fun _ _ _ _ => rfl, fun _ _ _ _ _ => rfl, ?_, ?_⟩
  · unfold FileButtons.sessionBook
    rw [hcond]
    simp [storeSet, List.lookup]
  · intro sid' hne
    unfold FileButtons.sessionBook
    rw [hcond]
    simp only [Bool.false_eq_true, if_false, storeSet, List.lookup]
    have : (sid' == sid) = false := by simpa using hne
    rw [this]

/-- C6 witness: a concrete authorized host books a session into an empty
store and the stored record is the fresh one. -/
theorem C6_bookFreshSession_witness :
    List.lookup "S1"
        (FileButtons.sessionBook "H" [] ⟨"H", [], false⟩ "S1" "18:30" "60"
          "C" "M").1 =
      some ⟨"S1", "18:30", "60", "C", "H", [], [], [], "M"⟩ :=
  (C6_bookFreshSession "H" ⟨"H", [], false⟩ [] "S1" "18:30" "60" "C" "M"
    (Or.inl rfl)).2.2.1

/-- C7: in the in-memory variants, a button interaction whose message is not
the currently active session message is answered with the past-session reply
and the session state is completely unchanged, whatever the event and the
member. -/
theorem C7_pastSessionUnchanged (a : Option String) (msg : String)
    (hne : a ≠ some msg) :
    (∀ (s : Mem.SessionData) (m : Member) (ev : Mem.BtnEvent),
      Mem.handleButton a s msg m ev = (s, .pastSession)) ∧
    (∀ (s : PartClosed.SessionData) (m : Member) (ev : PartClosed.BtnEvent),
      PartClosed.handleButton a s msg m ev = (s, .pastSession)) := by
  constructor
  · intro s m ev
    unfold Mem.handleButton
    rw [if_pos hne]
  · intro s m ev
    unfold PartClosed.handleButton
    rw [if_pos hne]

/-- C7 witness: with no active session, a concrete Driver click on a stale
message leaves a concrete session untouched and replies past-session. -/
theorem C7_pastSessionUnchanged_witness :
    Mem.handleButton none ⟨some "h", some "t", some "d", ["u2"], [], []⟩
        "M" ⟨"u1", [], false⟩ (.signup .driver) =
      (⟨some "h", some "t", some "d", ["u2"], [], []⟩, .pastSession) :=
  (C7_pastSessionUnchanged none "M" (by decide)).1
    ⟨some "h", some "t", some "d", ["u2"], [], []⟩ ⟨"u1", [], false⟩
    (.signup .driver)

/-- C8: every failure of the fetch-and-edit call inside updateSessionMessage
is caught and clears activeSessionMessageId to null (in both the basic and
the close-button variant), and a subsequent button click with no active id is
answered with the past-session start-over reply with the state unchanged. -/
theorem C8_editFailureClearsActive :
    (∀ (mid e : String),
      Mem.updateSessionMessage (some mid) (.error e) = none) ∧
    (∀ (mid c e : String),
      PartClosed.updateSessionMessage (some mid) (some c) (.error e) =
        none) ∧
    (∀ (s : Mem.SessionData) (msg : String) (m : Member)
        (ev : Mem.BtnEvent),
      Mem.handleButton none s msg m ev = (s, .pastSession)) := by
  refine ⟨fun _ _ => rfl, ?_, ?_⟩
  · intro mid c e
    simp [PartClosed.updateSessionMessage]
  · intro s msg m ev
    unfold Mem.handleButton
    rw [if_pos (by simp)]

/-- C9: in the file-backed select-menu variant, a sign-up for the driver or
trainee roster that is rejected because the roster is at a positive maximum
capacity returns with the persisted store identical to the one loaded —
saveSessions never runs on that path — even when the handler first spliced
the caller out of a different roster in the discarded in-memory copy. -/
theorem FileSelect.signupProceed_full_driver (store : Store)
    (sid uid tag : String) (s1 : SessionRec)
    (h1 : 0 < s1.maxDrivers) (h2 : s1.maxDrivers ≤ s1.drivers.length) :
    signupProceed store sid uid tag .driver s1 = (store, .rosterFull) := by
  simp only [signupProceed]
  rw [if_pos ⟨h1, h2⟩]

theorem FileSelect.signupProceed_full_trainee (store : Store)
    (sid uid tag : String) (s1 : SessionRec)
    (h1 : 0 < s1.maxTrainees) (h2 : s1.maxTrainees ≤ s1.trainees.length) :
    signupProceed store sid uid tag .trainee s1 = (store, .rosterFull) := by
  simp only [signupProceed]
  rw [if_pos ⟨h1, h2⟩]

theorem FileSelect.eraseRoster_maxDrivers (s : SessionRec) (cat : RoleSel)
    (uid : String) : (eraseRoster s cat uid).maxDrivers = s.maxDrivers := by
  cases cat <;> rfl

theorem FileSelect.eraseRoster_maxTrainees (s : SessionRec) (cat : RoleSel)
    (uid : String) : (eraseRoster s cat uid).maxTrainees = s.maxTrainees := by
  cases cat <;> rfl

theorem FileSelect.eraseRoster_drivers (s : SessionRec) (uid : String) :
    ∀ cat, cat ≠ RoleSel.driver →
      (eraseRoster s cat uid).drivers = s.drivers := by
  intro cat h
  cases cat with
  | driver => exact absurd rfl h
  | staff => rfl
  | trainee => rfl

theorem FileSelect.eraseRoster_trainees (s : SessionRec) (uid : String) :
    ∀ cat, cat ≠ RoleSel.trainee →
      (eraseRoster s cat uid).trainees = s.trainees := by
  intro cat h
  cases cat with
  | trainee => exact absurd rfl h
  | staff => rfl
  | driver => rfl

theorem C9_capacityRejectionNoSave
    (store : FileSelect.Store) (sid uid tag : String)
    (s : FileSelect.SessionRec)
    (hlook : List.lookup sid store = some s) :
    (FileSelect.findRoster s uid ≠ some .driver →
      0 < s.maxDrivers → s.maxDrivers ≤ s.drivers.length →
      FileSelect.signupSelect store sid uid tag .driver =
        (store, .rosterFull)) ∧
    (FileSelect.findRoster s uid ≠ some .trainee →
      0 < s.maxTrainees → s.maxTrainees ≤ s.trainees.length →
      FileSelect.signupSelect store sid uid tag .trainee =
        (store, .rosterFull)) := by
  constructor
  · intro hne h1 h2
    unfold FileSelect.signupSelect
    rw [hlook]
    dsimp only
    rcases hf : FileSelect.findRoster s uid with _ | cat
    · exact FileSelect.signupProceed_full_driver store sid uid tag s h1 h2
    · have hcat : cat ≠ FileSelect.RoleSel.driver := by
        rintro rfl; exact hne hf
      dsimp only
      rw [if_neg hcat]
      refine FileSelect.signupProceed_full_driver store sid uid tag _ ?_ ?_
      · rw [FileSelect.eraseRoster_maxDrivers]; exact h1
      · rw [FileSelect.eraseRoster_maxDrivers,
          FileSelect.eraseRoster_drivers s uid cat hcat]
        exact h2
  · intro hne h1 h2
    unfold FileSelect.signupSelect
    rw [hlook]
    dsimp only
    rcases hf : FileSelect.findRoster s uid with _ | cat
    · exact FileSelect.signupProceed_full_trainee store sid uid tag s h1 h2
    · have hcat : cat ≠ FileSelect.RoleSel.trainee := by
        rintro rfl; exact hne hf
      dsimp only
      rw [if_neg hcat]
      refine FileSelect.signupProceed_full_trainee store sid uid tag _ ?_ ?_
      · rw [FileSelect.eraseRoster_maxTrainees]; exact h1
      · rw [FileSelect.eraseRoster_maxTrainees,
          FileSelect.eraseRoster_trainees s uid cat hcat]
        exact h2

/-- C9 witness: a caller currently on the staff roster signing up for a full
trainee roster (capacity 1) is rejected and the persisted store is exactly
the original one, although the in-memory copy had spliced the caller out of
the staff roster. -/
theorem C9_capacityRejectionNoSave_witness :
    FileSelect.signupSelect
        [("S1", ⟨"S1", "h", "C", "18:30", "desc", 0, 0, 1,
          [], [⟨"u1", "U1"⟩], [⟨"u2", "U2"⟩], "active", "M"⟩)]
        "S1" "u1" "U1" .trainee =
      ([("S1", ⟨"S1", "h", "C", "18:30", "desc", 0, 0, 1,
          [], [⟨"u1", "U1"⟩], [⟨"u2", "U2"⟩], "active", "M"⟩)],
        .rosterFull) :=
  (C9_capacityRejectionNoSave
    [("S1", ⟨"S1", "h", "C", "18:30", "desc", 0, 0, 1,
      [], [⟨"u1", "U1"⟩], [⟨"u2", "U2"⟩], "active", "M"⟩)]
    "S1" "u1" "U1"
    ⟨"S1", "h", "C", "18:30", "desc", 0, 0, 1,
      [], [⟨"u1", "U1"⟩], [⟨"u2", "U2"⟩], "active", "M"⟩
    (by decide)).2 (by decide) (by decide) (by decide)

/-- Boolean wasSignedUp computed by the cancel branch equals membership of
the caller in some list. -/
theorem Mem.cancelAll_wasSignedUp (s : SessionData) (uid : String) :
    (cancelAll s uid).2 =
      (decide (uid ∈ s.driver) || decide (uid ∈ s.trainee) ||
        decide (uid ∈ s.junior)) := by
  have e1 : decide ((removeUser s.driver uid).length < s.driver.length) =
      decide (uid ∈ s.driver) := by
    rw [decide_eq_decide]; exact removeUser_length_lt
  have e2 : decide ((removeUser s.trainee uid).length < s.trainee.length) =
      decide (uid ∈ s.trainee) := by
    rw [decide_eq_decide]; exact removeUser_length_lt
  have e3 : decide ((removeUser s.junior uid).length < s.junior.length) =
      decide (uid ∈ s.junior) := by
    rw [decide_eq_decide]; exact removeUser_length_lt
  simp only [cancelAll]
  rw [e1, e2, e3]

/-- Boolean wasSignedUp of the part_000 cancel branch, likewise. -/
theorem PartClosed.cancelAll_flag (s : SessionData) (uid : String) :
    (cancelAll s uid).2 =
      (decide (uid ∈ s.driver) || decide (uid ∈ s.trainee) ||
        decide (uid ∈ s.junior)) := by
  have e1 : decide ((removeUser s.driver uid).length < s.driver.length) =
      decide (uid ∈ s.driver) := by
    rw [decide_eq_decide]; exact removeUser_length_lt
  have e2 : decide ((removeUser s.trainee uid).length < s.trainee.length) =
      decide (uid ∈ s.trainee) := by
    rw [decide_eq_decide]; exact removeUser_length_lt
  have e3 : decide ((removeUser s.junior uid).length < s.junior.length) =
      decide (uid ∈ s.junior) := by
    rw [decide_eq_decide]; exact removeUser_length_lt
  simp only [cancelAll]
  rw [e1, e2, e3]

/-- C10: on the active message, the cancel button removes the caller from all
three membership lists, keeps every other user's entries and the remaining
session fields unchanged, and replies with the cancellation confirmation
exactly when the caller was in some list beforehand (otherwise with the
not-signed-up notice); this holds in both in-memory variants. -/
theorem C10_cancelRemovesAll (a : Option String) (msg : String) (m : Member)
    (sM : Mem.SessionData) (sP : PartClosed.SessionData)
    (hact : a = some msg) :
    ((Mem.handleButton a sM msg m .cancel).1.driver =
        removeUser sM.driver m.id ∧
      (Mem.handleButton a sM msg m .cancel).1.trainee =
        removeUser sM.trainee m.id ∧
      (Mem.handleButton a sM msg m .cancel).1.junior =
        removeUser sM.junior m.id ∧
      (Mem.handleButton a sM msg m .cancel).1.host = sM.host ∧
      (Mem.handleButton a sM msg m .cancel).1.time = sM.time ∧
      (Mem.handleButton a sM msg m .cancel).1.duration = sM.duration ∧
      m.id ∉ (Mem.handleButton a sM msg m .cancel).1.driver ∧
      m.id ∉ (Mem.handleButton a sM msg m .cancel).1.trainee ∧
      m.id ∉ (Mem.handleButton a sM msg m .cancel).1.junior ∧
      (∀ v, v ≠ m.id →
        ((v ∈ (Mem.handleButton a sM msg m .cancel).1.driver ↔
            v ∈ sM.driver) ∧
          (v ∈ (Mem.handleButton a sM msg m .cancel).1.trainee ↔
            v ∈ sM.trainee) ∧
          (v ∈ (Mem.handleButton a sM msg m .cancel).1.junior ↔
            v ∈ sM.junior))) ∧
      (Mem.handleButton a sM msg m .cancel).2 =
        (if m.id ∈ sM.driver ∨ m.id ∈ sM.trainee ∨ m.id ∈ sM.junior
          then .cancelledConfirm else .notSignedUp)) ∧
    ((PartClosed.handleButton a sP msg m .cancel).1.driver =
        removeUser sP.driver m.id ∧
      (PartClosed.handleButton a sP msg m .cancel).1.trainee =
        removeUser sP.trainee m.id ∧
      (PartClosed.handleButton a sP msg m .cancel).1.junior =
        removeUser sP.junior m.id ∧
      (PartClosed.handleButton a sP msg m .cancel).1.host = sP.host ∧
      (PartClosed.handleButton a sP msg m .cancel).1.isClosed = sP.isClosed ∧
      (PartClosed.handleButton a sP msg m .cancel).2 =
        (if m.id ∈ sP.driver ∨ m.id ∈ sP.trainee ∨ m.id ∈ sP.junior
          then .cancelledConfirm else .notSignedUp)) := by
  have hcond : ¬ (a ≠ some msg) := by simp [hact]
  constructor
  · unfold Mem.handleButton
    rw [if_neg hcond]
    simp only
    refine ⟨rfl, rfl, rfl, rfl, rfl, rfl, ?_, ?_, ?_, ?_, ?_⟩
    · exact not_mem_removeUser sM.driver m.id
    · exact not_mem_removeUser sM.trainee m.id
    · exact not_mem_removeUser sM.junior m.id
    · intro v hv
      simp only [Mem.cancelAll]
      exact ⟨by simp [mem_removeUser, hv], by simp [mem_removeUser, hv],
        by simp [mem_removeUser, hv]⟩
    · rw [Mem.cancelAll_wasSignedUp]
      by_cases hmem : m.id ∈ sM.driver ∨ m.id ∈ sM.trainee ∨
          m.id ∈ sM.junior
      · rw [if_pos hmem]
        rcases hmem with h | h | h <;> simp [h]
      · rw [if_neg hmem]
        push_neg at hmem
        simp [hmem.1, hmem.2.1, hmem.2.2]
  · unfold PartClosed.handleButton
    rw [if_neg hcond]
    simp only
    refine ⟨rfl, rfl, rfl, rfl, rfl, ?_⟩
    · rw [PartClosed.cancelAll_flag]
      by_cases hmem : m.id ∈ sP.driver ∨ m.id ∈ sP.trainee ∨
          m.id ∈ sP.junior
      · rw [if_pos hmem]
        rcases hmem with h | h | h <;> simp [h]
      · rw [if_neg hmem]
        push_neg at hmem
        simp [hmem.1, hmem.2.1, hmem.2.2]

/-- C10 witness: a concrete signed-up driver cancels and is removed from the
lists with the confirmation reply. -/
theorem C10_cancelRemovesAll_witness :
    (Mem.handleButton (some "M")
        ⟨some "h", some "t", some "d", ["u1", "u2"], [], []⟩ "M"
        ⟨"u1", [], false⟩ .cancel).1.driver =
      removeUser ["u1", "u2"] "u1" ∧
    (Mem.handleButton (some "M")
        ⟨some "h", some "t", some "d", ["u1", "u2"], [], []⟩ "M"
        ⟨"u1", [], false⟩ .cancel).2 =
      (if ("u1" : String) ∈ ["u1", "u2"] ∨ ("u1" : String) ∈ ([] : List String) ∨
          ("u1" : String) ∈ ([] : List String)
        then Mem.Reply.cancelledConfirm else .notSignedUp) :=
  have main := C10_cancelRemovesAll (some "M") "M" ⟨"u1", [], false⟩
    ⟨some "h", some "t", some "d", ["u1", "u2"], [], []⟩
    ⟨some "C", some "h", some "t", some "d", [], [], [], false⟩ rfl
  ⟨main.1.1, main.1.2.2.2.2.2.2.2.2.2.2⟩

end PopDriving
